import Mathlib

/-!
# Verification of the call-tracking-calendar sync core

Shallow embedding of the repository's sync pipeline:

* `src/call_database.py` — `CallRecord` and its derived display properties.
* `src/sync_database.py` — the sync ledger (`synced_calls` table + `settings`
  key/value store), modelled as association lists with upsert semantics.
* `src/google_calendar.py` — `_build_event_body`, `create_events_batch`
  (chunked batched creation with per-chunk failure handling), and the
  calendar-resolution cache of `get_or_create_calendar`.
* `src/sync_service.py` — `SyncService.sync`, the orchestration pipeline.

External effects (SQLite, the Google API, the OS clock) are abstracted into a
`SyncEnv` of oracles: each `try`-guarded external operation is represented by an
environment field giving the outcome the real call would have produced.  The
functions below are otherwise line-by-line translations of the Python source.
Timestamps are UTC epoch seconds (`Int`).  Every run additionally produces a
trace of `Effect`s recording the externally visible actions, so that frame
properties ("no gateway creation call", "no ledger write") are statable.
-/

namespace CallSync

/-! ## Association lists (SQLite tables keyed by a TEXT primary key)

`sync_database.py` uses `INSERT OR REPLACE` upserts on tables with a unique
text key; we model both tables (`synced_calls`, `settings`) as association
lists with upsert/lookup operations. -/

/-- Lookup in an association list (first binding wins; keys are unique). -/
def getAssoc {β : Type} : List (String × β) → String → Option β
  | [], _ => none
  | (k', v) :: t, k => if k' = k then some v else getAssoc t k

/-- Upsert into an association list: replace the existing binding for the key
if present, otherwise append a new binding. -/
def setAssoc {β : Type} : List (String × β) → String → β → List (String × β)
  | [], k, v => [(k, v)]
  | (k', v') :: t, k, v =>
      if k' = k then (k, v) :: t else (k', v') :: setAssoc t k v

/-! ## CallRecord (`call_database.py`) -/

/-- One row of the macOS call-history database, as read by
`CallDatabase.get_calls`. -/
structure CallRecord where
  unique_id : String
  phone_number : String
  contact_name : Option String
  timestamp : Int
  duration_seconds : Nat
  is_answered : Bool
  is_outgoing : Bool
deriving DecidableEq, Repr

/-- `"s"` pluralization used by `CallRecord.duration_formatted`. -/
def pluralS (n : Nat) : String := if n = 1 then "" else "s"

/-- `CallRecord.direction`: human-readable call direction. -/
def CallRecord.direction (c : CallRecord) : String :=
  if c.is_outgoing then "Outgoing" else "Incoming"

/-- `CallRecord.duration_formatted`: human-readable duration
(`divmod` into hours/minutes/seconds, joined by spaces). -/
def CallRecord.duration_formatted (c : CallRecord) : String :=
  if c.duration_seconds = 0 then "0 seconds"
  else
    let minutes0 := c.duration_seconds / 60
    let seconds := c.duration_seconds % 60
    let hours := minutes0 / 60
    let minutes := minutes0 % 60
    let parts :=
      (if hours > 0 then [s!"{hours} hour{pluralS hours}"] else []) ++
      (if minutes > 0 then [s!"{minutes} minute{pluralS minutes}"] else []) ++
      (if seconds > 0 then [s!"{seconds} second{pluralS seconds}"] else [])
    String.intercalate " " parts

/-- Python `a or b` on an optional string: `None` and `""` are falsy. -/
def orNonempty (o : Option String) (b : String) : String :=
  match o with
  | some s => if s = "" then b else s
  | none => b

/-- `CallRecord.display_name`: `contact_name or phone_number or "Unknown"`. -/
def CallRecord.display_name (c : CallRecord) : String :=
  orNonempty c.contact_name (if c.phone_number = "" then "Unknown" else c.phone_number)

/-! ## Event body construction (`GoogleCalendar._build_event_body`) -/

/-- Python 3 `round(dur / 60)` for a natural `dur`: round to the nearest
integer, ties (exact halves, `dur % 60 = 30`) to even.  `dur / 60` is
evaluated in binary floating point in the source, but the only representable
exact tie is at remainder 30 and all other remainders are at least `1/60` away
from a tie, so rational rounding agrees with the float rounding. -/
def pyRoundDiv60 (dur : Nat) : Nat :=
  let q := dur / 60
  let r := dur % 60
  if r < 30 then q
  else if 30 < r then q + 1
  else if q % 2 = 0 then q else q + 1

/-- The `[{duration_str}]` label of `_build_event_body`: nearest-minute
rounding floored at 1 minute, rendered `"{m}min"` under an hour and
`"{h}h {m}m"` (`m` omitted when zero) otherwise. -/
def durationLabel (dur : Nat) : String :=
  let totalMins := max (pyRoundDiv60 dur) 1
  if totalMins ≥ 60 then
    let hours := totalMins / 60
    let mins := totalMins % 60
    if mins > 0 then s!"{hours}h {mins}m" else s!"{hours}h"
  else s!"{totalMins}min"

/-- The fields of the calendar event body that `_build_event_body` computes
from a call (start/end as epoch seconds; the private `callUniqueId`
idempotency tag). -/
structure EventBody where
  summary : String
  description : String
  startTs : Int
  endTs : Int
  callUniqueId : String
deriving DecidableEq, Repr

/-- `GoogleCalendar._build_event_body(call, contact_name)`.  `lookup` models
the best-effort `get_contact_name` directory query performed when no
pre-resolved name is supplied. -/
def buildEventBody (lookup : String → Option String) (call : CallRecord)
    (contactName : Option String) : EventBody :=
  let contactName :=
    match contactName with
    | none => lookup call.phone_number
    | some n => some n
  let displayName := orNonempty contactName call.display_name
  let durationStr := durationLabel call.duration_seconds
  let directionIcon := if call.is_outgoing then "↗" else "↙"
  let summary := s!"{directionIcon} {displayName} [{durationStr}]"
  let duration : Nat := max call.duration_seconds 60
  let endTime : Int := call.timestamp + (duration : Int)
  let descriptionParts :=
    [s!"Direction: {call.direction}", s!"Duration: {call.duration_formatted}"] ++
    (if call.phone_number = "" then [] else [s!"Number: {call.phone_number}"])
  { summary := summary
    description := String.intercalate "\n" descriptionParts
    startTs := call.timestamp
    endTs := endTime
    callUniqueId := call.unique_id }

/-! ## Civil date → epoch seconds (for stating instants from the spec) -/

/-- Days from 1970-01-01 to the given proleptic-Gregorian civil date
(valid for non-negative years, which is all we use). -/
def daysFromCivil (y : Int) (m d : Nat) : Int :=
  let y' : Int := if m ≤ 2 then y - 1 else y
  let era : Int := (if 0 ≤ y' then y' else y' - 399) / 400
  let yoe : Int := y' - era * 400
  let mp : Int := ((m : Int) + 9) % 12
  let doy : Int := (153 * mp + 2) / 5 + (d : Int) - 1
  let doe : Int := yoe * 365 + yoe / 4 - yoe / 100 + doy
  era * 146097 + doe - 719468

/-- UTC epoch seconds of a civil instant. -/
def utcEpoch (y : Int) (m d h mi s : Nat) : Int :=
  daysFromCivil y m d * 86400 + (h : Int) * 3600 + (mi : Int) * 60 + (s : Int)

/-! ## External-effect oracles and traces -/

/-- Outcome of `CallDatabase.get_calls`: the distinguished `PermissionError`
versus any other exception (`sync` formats the two differently). -/
inductive FetchErr where
  | permission (msg : String)
  | other (msg : String)

/-- Outcome of a failed single-event creation in the non-batch loop:
`GoogleCalendarError` (including calendar-resolution failures) versus an
unexpected exception — `sync` catches the two separately. -/
inductive SingleErr where
  | gcal (msg : String)
  | unexpected (msg : String)

/-- Outcome of one chunk of `create_events_batch`: either the entire batched
HTTP request fails (`batch.execute()` raises `HttpError`, so no per-item
callback fires), or the request goes through and each item `j` of the chunk
gets an individual response id or an individual exception string. -/
inductive ChunkOutcome where
  | fail (err : String)
  | ok (items : Nat → Except String String)

/-- Oracle bundle for one `sync()` run: the outcome each external call would
produce, indexed where the source can issue the call repeatedly. -/
structure SyncEnv where
  /-- `datetime.now(timezone.utc)` as epoch seconds (time not advancing
  within a run). -/
  now : Int
  /-- `some e` iff `sync_db.initialize()` raises with message `e`. -/
  initErr : Option String
  /-- `call_db.exists()`. -/
  callDbExists : Bool
  /-- `call_db.is_readable()`. -/
  callDbReadable : Bool
  /-- `calendar.is_authenticated`. -/
  isAuthenticated : Bool
  /-- Result of the n-th actual remote calendar resolution performed by
  `get_or_create_calendar` on a cache miss. -/
  calendarId : Nat → Except String String
  /-- `some e` iff `sync_db.get_synced_call_ids()` raises with message `e`. -/
  syncedIdsErr : Option String
  /-- Result of `call_db.get_calls(...)` (already materialized by `list`). -/
  fetch : Except FetchErr (List CallRecord)
  /-- Outcome of the k-th batched request of `create_events_batch`. -/
  chunk : Nat → ChunkOutcome
  /-- Outcome of the single-event insert for the i-th call of the non-batch
  loop. -/
  singleInsert : Nat → Except SingleErr String

/-- Externally visible actions of a run, in order. -/
inductive Effect where
  | initLedger
  | resolveCalendar
  | clearAllSynced
  | setSetting (key value : String)
  | getSyncedIds
  | fetchCalls (since : Option Int) (answeredOnly : Bool)
  | chunkRequest (idx : Nat)
  | insertEvent (callId : String)
  | markSynced (callId eventId : String)
  | progress (completed total : Nat)
deriving DecidableEq, Repr

/-- A gateway event-creation call: one batched insert request or one single
`events().insert` request.  (Calendar resolution is not event creation.) -/
def isCreationEffect : Effect → Bool
  | .chunkRequest _ => true
  | .insertEvent _ => true
  | _ => false

/-- A write to the sync ledger (synced-calls table or settings table). -/
def isLedgerWrite : Effect → Bool
  | .clearAllSynced => true
  | .setSetting _ _ => true
  | .markSynced _ _ => true
  | _ => false

/-! ## Gateway calendar-resolution cache (`get_or_create_calendar`) -/

/-- Per-instance gateway state: the cached `_calendar_id` plus a counter of
remote resolutions performed (used to index `SyncEnv.calendarId`). -/
structure GatewayState where
  calendarCache : Option String
  queries : Nat
deriving DecidableEq, Repr

structure ResolveOut where
  result : Except String String
  gw : GatewayState
  trace : List Effect

/-- `get_or_create_calendar` / `get_calendar_id`: return the cached id if
present, otherwise perform one remote resolution and cache a success. -/
def getOrCreateCalendar (env : SyncEnv) (gw : GatewayState) : ResolveOut :=
  match gw.calendarCache with
  | some c => { result := .ok c, gw := gw, trace := [] }
  | none =>
      match env.calendarId gw.queries with
      | .ok c =>
          { result := .ok c
            gw := { calendarCache := some c, queries := gw.queries + 1 }
            trace := [.resolveCalendar] }
      | .error e =>
          { result := .error e
            gw := { gw with queries := gw.queries + 1 }
            trace := [.resolveCalendar] }

/-! ## `GoogleCalendar.create_events_batch` -/

/-- Google's batch limit (`BATCH_SIZE` in `google_calendar.py`). -/
def BATCH_SIZE : Nat := 50

/-- Split a list into consecutive chunks of `BATCH_SIZE`
(`calls[batch_start:batch_start + BATCH_SIZE]` slicing loop), fuelled so the
definition is structural and computes by `decide`. -/
def chunksOfAux {α : Type} : Nat → List α → List (List α)
  | _, [] => []
  | 0, _ :: _ => []
  | fuel + 1, x :: xs => ((x :: xs).take BATCH_SIZE) :: chunksOfAux fuel ((x :: xs).drop BATCH_SIZE)

def chunksOf {α : Type} (l : List α) : List (List α) := chunksOfAux l.length l

/-- The value the per-item batch callback stores in `batch_results` for
item `j`: `(response["id"], None)` on success, `(None, str(exception))` on a
per-item exception. -/
def dictValue (items : Nat → Except String String) (j : Nat) :
    Option String × Option String :=
  match items j with
  | .ok ev => (some ev, none)
  | .error ex => (none, some ex)

/-- `batch_results` after all callbacks of a successful batched request have
fired: a dict keyed by `call.unique_id` (later callbacks overwrite earlier
bindings for a duplicated id, as Python dict assignment does). -/
def buildChunkDict (items : Nat → Except String String) :
    List CallRecord → Nat → List (String × (Option String × Option String)) →
      List (String × (Option String × Option String))
  | [], _, acc => acc
  | c :: rest, j, acc =>
      buildChunkDict items rest (j + 1) (setAssoc acc c.unique_id (dictValue items j))

/-- `batch_results` after the `except HttpError` handler of a failed batched
request: every call of the chunk not already present is marked
`(None, str(e))`.  (No callback fires when the whole request fails, so the
handler starts from the empty dict.) -/
def fillFailDict (e : String) :
    List CallRecord → List (String × (Option String × Option String)) →
      List (String × (Option String × Option String))
  | [], acc => acc
  | c :: rest, acc =>
      fillFailDict e rest
        (if (getAssoc acc c.unique_id).isSome then acc
         else setAssoc acc c.unique_id (none, some e))

/-- The `batch_results` dict of chunk `k`. -/
def chunkDict (env : SyncEnv) (k : Nat) (chunk : List CallRecord) :
    List (String × (Option String × Option String)) :=
  match env.chunk k with
  | .fail e => fillFailDict e chunk []
  | .ok items => buildChunkDict items chunk 0 []

/-- `batch_results.get(call.unique_id, (None, "Unknown error"))`. -/
def lookupResult (dict : List (String × (Option String × Option String)))
    (id : String) : Option String × Option String :=
  match getAssoc dict id with
  | some p => p
  | none => (none, some "Unknown error")

/-- The per-call result tuples appended for chunk `k`, in chunk order. -/
def chunkResults (env : SyncEnv) (k : Nat) (chunk : List CallRecord) :
    List (String × Option String × Option String) :=
  chunk.map (fun c => (c.unique_id, lookupResult (chunkDict env k chunk) c.unique_id))

/-- The chunked main loop of `create_events_batch`: one batched request and
one progress callback per chunk, results concatenated in input order. -/
def processChunks (env : SyncEnv) (total : Nat) :
    List (List CallRecord) → Nat →
      List (String × Option String × Option String) × List Effect
  | [], _ => ([], [])
  | ck :: rest, k =>
      let rs := chunkResults env k ck
      let r := processChunks env total rest (k + 1)
      (rs ++ r.1,
        [Effect.chunkRequest k,
         Effect.progress (min (BATCH_SIZE * k + BATCH_SIZE) total) total] ++ r.2)

/-- `GoogleCalendar.create_events_batch`.  Returns `none` in the first
component when the calendar resolution raises, modelling the exception
propagating out of the call (the per-item bodies built via
`_build_event_body` are handed to the remote request, whose outcome the
environment's `chunk` oracle abstracts). -/
def createEventsBatch (env : SyncEnv) (gw : GatewayState) (calls : List CallRecord) :
    Option (List (String × Option String × Option String)) × GatewayState × List Effect :=
  if calls.isEmpty then (some [], gw, [])
  else
    let rc := getOrCreateCalendar env gw
    match rc.result with
    | .error _ => (none, rc.gw, rc.trace)
    | .ok _ =>
        let pc := processChunks env calls.length (chunksOf calls) 0
        (some pc.1, rc.gw, rc.trace ++ pc.2)

/-! ## Sync ledger state (`sync_database.py`) -/

/-- The two tables of the sync database: `synced_calls`
(`call_unique_id → google_event_id`) and `settings` (`key → value`), both
with a unique text key and upsert writes. -/
structure LedgerState where
  syncedCalls : List (String × String)
  settings : List (String × String)
deriving DecidableEq, Repr

def LedgerState.getSetting (l : LedgerState) (k : String) : Option String :=
  getAssoc l.settings k

def LedgerState.setSetting (l : LedgerState) (k v : String) : LedgerState :=
  { l with settings := setAssoc l.settings k v }

/-- `get_synced_call_ids`: the set of synced call ids (as the list of keys;
keys are unique). -/
def LedgerState.syncedIds (l : LedgerState) : List String :=
  l.syncedCalls.map (fun p => p.1)

def LedgerState.markSynced (l : LedgerState) (id ev : String) : LedgerState :=
  { l with syncedCalls := setAssoc l.syncedCalls id ev }

def LedgerState.clearAllSyncedCalls (l : LedgerState) : LedgerState :=
  { l with syncedCalls := [] }

/-! ## Sync orchestrator (`sync_service.py`) -/

def SETTING_INITIAL_SYNC_DONE : String := "initial_sync_done"
def SETTING_SYNC_ALL_HISTORY : String := "sync_all_history"
def SETTING_CALENDAR_ID : String := "calendar_id"
def DEFAULT_SYNC_DAYS : Nat := 30

/-- `SyncService.check_prerequisites`. -/
def checkPrerequisites (env : SyncEnv) : List String :=
  (if env.callDbExists = false then ["Call history database not found."]
   else if env.callDbReadable = false then
     ["Cannot read call history. Full Disk Access permission is required."]
   else []) ++
  (if env.isAuthenticated = false then ["Not authenticated with Google Calendar."]
   else [])

/-- `SyncService._get_default_since`: `None` (unbounded) once all-history is
requested or the initial sync is done, else 30 days before now. -/
def getDefaultSince (env : SyncEnv) (led : LedgerState) : Option Int :=
  if led.getSetting SETTING_SYNC_ALL_HISTORY = some "true" then none
  else if led.getSetting SETTING_INITIAL_SYNC_DONE = some "true" then none
  else some (env.now - (DEFAULT_SYNC_DAYS : Int) * 86400)

/-- The calendar-identity drift check of `sync` (the `try` block at lines
193–204): resolve the current calendar id; on success, clear the synced-calls
table when a non-empty stored id differs from it (Python truthiness treats an
empty stored string as absent), then persist the current id; on a resolution
failure, log and continue with everything unchanged. -/
def driftStep (env : SyncEnv) (led : LedgerState) (gw : GatewayState) :
    LedgerState × GatewayState × List Effect :=
  let rc := getOrCreateCalendar env gw
  match rc.result with
  | .error _ => (led, rc.gw, rc.trace)
  | .ok cid =>
      let cleared :=
        match led.getSetting SETTING_CALENDAR_ID with
        | some s =>
            if s ≠ "" ∧ s ≠ cid then (led.clearAllSyncedCalls, [Effect.clearAllSynced])
            else (led, ([] : List Effect))
        | none => (led, ([] : List Effect))
      ((cleared.1).setSetting SETTING_CALENDAR_ID cid, rc.gw,
        rc.trace ++ cleared.2 ++ [Effect.setSetting SETTING_CALENDAR_ID cid])

/-- The filter-and-deduplicate loop of `sync` (lines 257–263): walk the
candidates in order, keeping a call iff its id is neither in the synced-id
set nor already seen in this batch. -/
def filterDedupAux (syncedIds : List String) :
    List CallRecord → List String → List CallRecord
  | [], _ => []
  | c :: rest, seen =>
      if !(syncedIds.contains c.unique_id) && !(seen.contains c.unique_id) then
        c :: filterDedupAux syncedIds rest (c.unique_id :: seen)
      else
        filterDedupAux syncedIds rest seen

/-- Filter and dedup plus the skip counter
(`calls_skipped = len(all_calls) - len(calls_to_sync)`). -/
def filterDedup (allCalls : List CallRecord) (syncedIds : List String) :
    List CallRecord × Nat :=
  let kept := filterDedupAux syncedIds allCalls []
  (kept, allCalls.length - kept.length)

/-- Modelled from the spec's words for the refinement statement of the
dedup clause: "among the remainder, collapse repeats of the same id, keeping
the first occurrence and discarding later ones (even if their fields
differ)". -/
def keepFirstByIdAux : List CallRecord → List String → List CallRecord
  | [], _ => []
  | c :: rest, seen =>
      if seen.contains c.unique_id then keepFirstByIdAux rest seen
      else c :: keepFirstByIdAux rest (c.unique_id :: seen)

/-- Collapse repeated `unique_id`s keeping the first occurrence. -/
def keepFirstById (l : List CallRecord) : List CallRecord :=
  keepFirstByIdAux l []

/-- `SyncResult` (`success`, counts, error strings, instants). -/
structure SyncResult where
  success : Bool
  calls_synced : Nat
  calls_skipped : Nat
  errors : List String
  started_at : Int
  finished_at : Int
deriving DecidableEq, Repr

/-- Outcome of a `sync` run: the returned `SyncResult` (`none` when an
uncaught exception propagates out of `sync`), the final ledger and gateway
states, and the trace of external actions performed before returning or
raising. -/
structure SyncOut where
  result : Option SyncResult
  led : LedgerState
  gw : GatewayState
  trace : List Effect
deriving DecidableEq, Repr

def mkResult (env : SyncEnv) (success : Bool) (synced skipped : Nat)
    (errors : List String) : SyncResult :=
  { success := success, calls_synced := synced, calls_skipped := skipped,
    errors := errors, started_at := env.now, finished_at := env.now }

/-- Python `str(...)` of the error component of a batch result tuple
(`None` prints as `"None"`; it is never `None` when the event id is absent,
but the formatting is faithful regardless). -/
def optStr (o : Option String) : String :=
  match o with
  | some s => s
  | none => "None"

structure BatchAcc where
  led : LedgerState
  synced : Nat
  errors : List String
  trace : List Effect
deriving DecidableEq, Repr

/-- The loop over `create_events_batch` results in `sync` (lines 295–300):
mark each success synced immediately, accumulate an error string per
failure. -/
def processBatchResults (led : LedgerState) :
    List (String × Option String × Option String) → BatchAcc
  | [] => { led := led, synced := 0, errors := [], trace := [] }
  | (id, some ev, _) :: rest =>
      let r := processBatchResults (led.markSynced id ev) rest
      { led := r.led, synced := r.synced + 1, errors := r.errors,
        trace := Effect.markSynced id ev :: r.trace }
  | (id, none, err) :: rest =>
      let r := processBatchResults led rest
      { led := r.led, synced := r.synced,
        errors := s!"Failed to sync call {id}: {optStr err}" :: r.errors,
        trace := r.trace }

structure CreateAcc where
  gw : GatewayState
  led : LedgerState
  synced : Nat
  errors : List String
  trace : List Effect
deriving Repr

/-- The individual-request loop of `sync` (lines 303–322):
`create_event_from_call` resolves the calendar then inserts one event; a
`GoogleCalendarError` (including a resolution failure) or an unexpected
exception is caught per call; successes are marked synced immediately; the
progress callback fires after every record. -/
def singleLoop (env : SyncEnv) (total : Nat) :
    List CallRecord → Nat → GatewayState → LedgerState → CreateAcc
  | [], _, gw, led => { gw := gw, led := led, synced := 0, errors := [], trace := [] }
  | call :: rest, i, gw, led =>
      let rc := getOrCreateCalendar env gw
      match rc.result with
      | .error e =>
          let r := singleLoop env total rest (i + 1) rc.gw led
          { gw := r.gw, led := r.led, synced := r.synced,
            errors := s!"Failed to sync call {call.unique_id}: {e}" :: r.errors,
            trace := rc.trace ++ [Effect.progress (i + 1) total] ++ r.trace }
      | .ok _ =>
          match env.singleInsert i with
          | .ok ev =>
              let r := singleLoop env total rest (i + 1) rc.gw
                (led.markSynced call.unique_id ev)
              { gw := r.gw, led := r.led, synced := r.synced + 1, errors := r.errors,
                trace := rc.trace ++
                  [Effect.insertEvent call.unique_id,
                   Effect.markSynced call.unique_id ev,
                   Effect.progress (i + 1) total] ++ r.trace }
          | .error (.gcal m) =>
              let r := singleLoop env total rest (i + 1) rc.gw led
              { gw := r.gw, led := r.led, synced := r.synced,
                errors := s!"Failed to sync call {call.unique_id}: {m}" :: r.errors,
                trace := rc.trace ++
                  [Effect.insertEvent call.unique_id,
                   Effect.progress (i + 1) total] ++ r.trace }
          | .error (.unexpected m) =>
              let r := singleLoop env total rest (i + 1) rc.gw led
              { gw := r.gw, led := r.led, synced := r.synced,
                errors := s!"Unexpected error syncing call {call.unique_id}: {m}" :: r.errors,
                trace := rc.trace ++
                  [Effect.insertEvent call.unique_id,
                   Effect.progress (i + 1) total] ++ r.trace }

/-- The tail of `sync` from the `get_calls` call onwards (lines 228–340):
fetch, filter/dedup, early exit, dry run, then batched or individual
creation and the final result assembly.  Its trace is the suffix of the run's
trace after the `fetchCalls` effect. -/
def afterFetch (env : SyncEnv) (led : LedgerState) (gw : GatewayState)
    (dryRun useBatch : Bool) (syncedIds : List String) : SyncOut :=
  match env.fetch with
  | .error (.permission m) =>
      { result := some (mkResult env false 0 0 [m]), led := led, gw := gw, trace := [] }
  | .error (.other m) =>
      { result := some (mkResult env false 0 0 [s!"Failed to get calls: {m}"]),
        led := led, gw := gw, trace := [] }
  | .ok allCalls =>
      let fd := filterDedup allCalls syncedIds
      let callsToSync := fd.1
      let skipped := fd.2
      if callsToSync.isEmpty then
        { result := some (mkResult env true 0 skipped [])
          led := led.setSetting SETTING_INITIAL_SYNC_DONE "true"
          gw := gw
          trace := [Effect.setSetting SETTING_INITIAL_SYNC_DONE "true"] }
      else if dryRun then
        { result := some (mkResult env true callsToSync.length skipped [])
          led := led, gw := gw, trace := [] }
      else if useBatch ∧ callsToSync.length > 1 then
        let cb := createEventsBatch env gw callsToSync
        match cb.1 with
        | none => { result := none, led := led, gw := cb.2.1, trace := cb.2.2 }
        | some results =>
            let pb := processBatchResults led results
            { result := some (mkResult env pb.errors.isEmpty pb.synced skipped pb.errors)
              led := (pb.led).setSetting SETTING_INITIAL_SYNC_DONE "true"
              gw := cb.2.1
              trace := cb.2.2 ++ pb.trace ++
                [Effect.setSetting SETTING_INITIAL_SYNC_DONE "true"] }
      else
        let sl := singleLoop env callsToSync.length callsToSync 0 gw led
        { result := some (mkResult env sl.errors.isEmpty sl.synced skipped sl.errors)
          led := (sl.led).setSetting SETTING_INITIAL_SYNC_DONE "true"
          gw := sl.gw
          trace := sl.trace ++ [Effect.setSetting SETTING_INITIAL_SYNC_DONE "true"] }

/-- `SyncService.sync` (lines 141–340): ledger bring-up, prerequisite check,
calendar-drift detection, window selection, synced-id fetch, then
`afterFetch`. -/
def sync (env : SyncEnv) (led : LedgerState) (gw : GatewayState)
    (answeredOnly : Bool) (since : Option Int) (dryRun useBatch : Bool) : SyncOut :=
  match env.initErr with
  | some e =>
      { result := some (mkResult env false 0 0
          [s!"Failed to initialize sync database: {e}"])
        led := led, gw := gw, trace := [Effect.initLedger] }
  | none =>
      match checkPrerequisites env with
      | [] =>
          let d := driftStep env led gw
          let led1 := d.1
          let gw1 := d.2.1
          let since1 :=
            match since with
            | some s => some s
            | none => getDefaultSince env led1
          match env.syncedIdsErr with
          | some e =>
              { result := some (mkResult env false 0 0
                  [s!"Failed to get synced call IDs: {e}"])
                led := led1, gw := gw1
                trace := [Effect.initLedger] ++ d.2.2 ++ [Effect.getSyncedIds] }
          | none =>
              let af := afterFetch env led1 gw1 dryRun useBatch led1.syncedIds
              { result := af.result, led := af.led, gw := af.gw
                trace := [Effect.initLedger] ++ d.2.2 ++
                  [Effect.getSyncedIds, Effect.fetchCalls since1 answeredOnly] ++
                  af.trace }
      | e :: es =>
          { result := some (mkResult env false 0 0 (e :: es))
            led := led, gw := gw, trace := [Effect.initLedger] }

/-! ## Further effect predicates -/

/-- A candidate-fetch from the call source. -/
def isFetchEffect : Effect → Bool
  | .fetchCalls _ _ => true
  | _ => false

/-- Effects a dry run does not perform: gateway event creation, synced-call
markings, and setting `initial_sync_done`.  (The drift check's calendar-id
bookkeeping — `setSetting calendar_id` and a possible synced-set clear — is
not included: it happens before the dry-run short circuit.) -/
def isDryRunForbidden (e : Effect) : Bool :=
  isCreationEffect e ||
  (match e with
   | .markSynced _ _ => true
   | .setSetting k _ => k == SETTING_INITIAL_SYNC_DONE
   | _ => false)

/-! ## Concrete fixtures (used by witnesses and counterexamples) -/

def led0 : LedgerState := { syncedCalls := [], settings := [] }

def gw0 : GatewayState := { calendarCache := none, queries := 0 }

def call1 : CallRecord :=
  { unique_id := "c1", phone_number := "+15550000001", contact_name := none,
    timestamp := 0, duration_seconds := 60, is_answered := true, is_outgoing := false }

def call2 : CallRecord :=
  { unique_id := "c2", phone_number := "+15550000002", contact_name := none,
    timestamp := 100, duration_seconds := 90, is_answered := true, is_outgoing := true }

def call3 : CallRecord :=
  { unique_id := "c3", phone_number := "+15550000003", contact_name := none,
    timestamp := 200, duration_seconds := 0, is_answered := true, is_outgoing := false }

/-- The spec's worked example: an answered incoming 300-second call from the
contact "John Doe" at 2024-01-15T10:30:00Z. -/
def johnCall : CallRecord :=
  { unique_id := "john-1", phone_number := "+15551234567",
    contact_name := some "John Doe",
    timestamp := utcEpoch 2024 1 15 10 30 0, duration_seconds := 300,
    is_answered := true, is_outgoing := false }

/-- A benign environment: everything succeeds; the remote calendar resolves
to `"cal-1"`; three fresh calls are fetched. -/
def envHappy : SyncEnv :=
  { now := 1705314600, initErr := none, callDbExists := true,
    callDbReadable := true, isAuthenticated := true,
    calendarId := fun _ => .ok "cal-1", syncedIdsErr := none,
    fetch := .ok [call1, call2, call3],
    chunk := fun _ => .ok (fun j => .ok s!"ev{j}"),
    singleInsert := fun i => .ok s!"ev{i}" }

/-- Environment whose only difference from `envHappy` is that every batched
request fails outright. -/
def envBatchFail : SyncEnv :=
  { envHappy with chunk := fun _ => .fail "network down" }

/-- A ledger that recorded calendar id `"cal-0"` on a previous run (differing
from the `"cal-1"` the gateway now resolves). -/
def ledDrift : LedgerState :=
  { syncedCalls := [("c1", "ev-old")], settings := [(SETTING_CALENDAR_ID, "cal-0")] }

/-- A duplicate source row for `call1`'s id with different fields. -/
def call1dup : CallRecord := { call1 with duration_seconds := 999 }

/-- A ledger that already synced `"c2"`. -/
def ledSynced2 : LedgerState := { syncedCalls := [("c2", "ev2")], settings := [] }

/-- `envHappy`, but the candidate fetch yields a duplicated row and an
already-synced call. -/
def envDup : SyncEnv := { envHappy with fetch := .ok [call1, call1dup, call2] }

/-- `envHappy`, but the candidate fetch yields nothing. -/
def envNoCalls : SyncEnv := { envHappy with fetch := .ok [] }

/-- `envHappy`, but ledger initialization raises. -/
def envInitFail : SyncEnv := { envHappy with initErr := some "disk full" }

/-- `envHappy`, but the gateway is unauthenticated. -/
def envNoAuth : SyncEnv := { envHappy with isAuthenticated := false }

/-! ## Helper lemmas -/

theorem getAssoc_setAssoc {β : Type} (l : List (String × β)) (k k' : String) (v : β) :
    getAssoc (setAssoc l k v) k' = if k = k' then some v else getAssoc l k' := by
  induction l with
  | nil => by_cases h : k = k' <;> simp [setAssoc, getAssoc, h]
  | cons p t ih =>
      obtain ⟨k₀, v₀⟩ := p
      simp only [setAssoc]
      by_cases h0 : k₀ = k
      · subst h0
        rw [if_pos rfl]
        by_cases h : k₀ = k' <;> simp [getAssoc, h]
      · rw [if_neg h0]
        by_cases h1 : k₀ = k'
        · subst h1
          have hkk : ¬k = k₀ := fun hh => h0 hh.symm
          simp [getAssoc, hkk]
        · simp [getAssoc, h1, ih]

theorem chunksOfAux_flatten {α : Type} (fuel : Nat) (l : List α) (h : l.length ≤ fuel) :
    (chunksOfAux fuel l).flatten = l := by
  induction fuel generalizing l with
  | zero =>
      cases l with
      | nil => simp [chunksOfAux]
      | cons x xs => simp at h
  | succ n ih =>
      cases l with
      | nil => simp [chunksOfAux]
      | cons x xs =>
          have hlen : ((x :: xs).drop BATCH_SIZE).length ≤ n := by
            simp only [List.length_drop, List.length_cons, BATCH_SIZE] at h ⊢
            omega
          simp only [chunksOfAux, List.flatten_cons, ih _ hlen, List.take_append_drop]

theorem chunksOf_flatten {α : Type} (l : List α) : (chunksOf l).flatten = l :=
  chunksOfAux_flatten l.length l le_rfl

theorem chunkResults_map_fst (env : SyncEnv) (k : Nat) (ck : List CallRecord) :
    (chunkResults env k ck).map (fun t => t.1) = ck.map (fun c => c.unique_id) := by
  simp [chunkResults, List.map_map, Function.comp]

theorem processChunks_map_fst (env : SyncEnv) (total : Nat)
    (cks : List (List CallRecord)) (k : Nat) :
    ((processChunks env total cks k).1).map (fun t => t.1) =
      cks.flatten.map (fun c => c.unique_id) := by
  induction cks generalizing k with
  | nil => simp [processChunks]
  | cons ck rest ih =>
      simp [processChunks, List.map_append, chunkResults_map_fst, ih]

theorem processChunks_mem_of_get (env : SyncEnv) (total : Nat)
    (cks : List (List CallRecord)) (k0 k : Nat) (ck : List CallRecord)
    (t : String × Option String × Option String)
    (hget : cks.get? k = some ck) (ht : t ∈ chunkResults env (k0 + k) ck) :
    t ∈ (processChunks env total cks k0).1 := by
  induction cks generalizing k0 k with
  | nil => simp at hget
  | cons c0 rest ih =>
      cases k with
      | zero =>
          simp only [List.get?_cons_zero, Option.some_inj] at hget
          subst hget
          simp only [Nat.add_zero] at ht
          exact List.mem_append_left _ ht
      | succ k' =>
          simp only [List.get?_cons_succ] at hget
          have hidx : k0 + (k' + 1) = (k0 + 1) + k' := by omega
          rw [hidx] at ht
          exact List.mem_append_right _ (ih (k0 + 1) k' hget ht)

theorem fillFailDict_values (e : String) (chunk : List CallRecord)
    (acc : List (String × (Option String × Option String)))
    (hacc : ∀ id v, getAssoc acc id = some v → v = (none, some e)) :
    ∀ id v, getAssoc (fillFailDict e chunk acc) id = some v → v = (none, some e) := by
  induction chunk generalizing acc with
  | nil => exact hacc
  | cons c rest ih =>
      simp only [fillFailDict]
      apply ih
      by_cases hp : (getAssoc acc c.unique_id).isSome
      · rw [if_pos hp]
        exact hacc
      · simp only [hp, if_false, Bool.false_eq_true]
        intro id v hv
        rw [getAssoc_setAssoc] at hv
        by_cases hc : c.unique_id = id
        · simp [hc] at hv
          exact hv.symm
        · rw [if_neg hc] at hv
          exact hacc id v hv

theorem fillFailDict_presence_mono (e : String) (chunk : List CallRecord)
    (acc : List (String × (Option String × Option String))) (id : String)
    (h : (getAssoc acc id).isSome) :
    (getAssoc (fillFailDict e chunk acc) id).isSome := by
  induction chunk generalizing acc with
  | nil => exact h
  | cons c rest ih =>
      simp only [fillFailDict]
      apply ih
      by_cases hp : (getAssoc acc c.unique_id).isSome
      · simpa [hp]
      · simp only [hp, if_false, Bool.false_eq_true]
        rw [getAssoc_setAssoc]
        by_cases hc : c.unique_id = id
        · simp [hc]
        · rw [if_neg hc]; exact h

theorem fillFailDict_mem_present (e : String) (chunk : List CallRecord)
    (acc : List (String × (Option String × Option String)))
    (c : CallRecord) (hc : c ∈ chunk) :
    (getAssoc (fillFailDict e chunk acc) c.unique_id).isSome := by
  induction chunk generalizing acc with
  | nil => simp at hc
  | cons c0 rest ih =>
      simp only [fillFailDict]
      rcases List.mem_cons.mp hc with h0 | hmem
      · subst h0
        apply fillFailDict_presence_mono
        by_cases hp : (getAssoc acc c.unique_id).isSome
        · rw [if_pos hp]
          exact hp
        · simp only [hp, if_false, Bool.false_eq_true]
          rw [getAssoc_setAssoc, if_pos rfl]
          rfl
      · exact ih _ hmem

theorem chunkResults_fail_mem (env : SyncEnv) (k : Nat) (ck : List CallRecord)
    (e : String) (hfail : env.chunk k = ChunkOutcome.fail e)
    (c : CallRecord) (hc : c ∈ ck) :
    (c.unique_id, (none : Option String), some e) ∈ chunkResults env k ck := by
  have hdict : chunkDict env k ck = fillFailDict e ck [] := by
    simp [chunkDict, hfail]
  have hpres : (getAssoc (chunkDict env k ck) c.unique_id).isSome := by
    rw [hdict]; exact fillFailDict_mem_present e ck [] c hc
  obtain ⟨v, hv⟩ := Option.isSome_iff_exists.mp hpres
  have hval : v = (none, some e) := by
    apply fillFailDict_values e ck [] _ c.unique_id v (hdict ▸ hv)
    intro id v h
    simp [getAssoc] at h
  have : lookupResult (chunkDict env k ck) c.unique_id = (none, some e) := by
    simp [lookupResult, hv, hval]
  have hmem : (c.unique_id, lookupResult (chunkDict env k ck) c.unique_id)
      ∈ chunkResults env k ck :=
    List.mem_map_of_mem _ hc
  rw [this] at hmem
  exact hmem

/-- On a run that passes ledger bring-up, the prerequisite check, and the
synced-id fetch, `sync` is the drift step followed by `afterFetch`. -/
theorem sync_eq_of_ok (env : SyncEnv) (led : LedgerState) (gw : GatewayState)
    (ao : Bool) (since : Option Int) (dr ub : Bool)
    (h1 : env.initErr = none) (h2 : checkPrerequisites env = [])
    (h3 : env.syncedIdsErr = none) :
    sync env led gw ao since dr ub =
      { result := (afterFetch env (driftStep env led gw).1 (driftStep env led gw).2.1
          dr ub ((driftStep env led gw).1).syncedIds).result
        led := (afterFetch env (driftStep env led gw).1 (driftStep env led gw).2.1
          dr ub ((driftStep env led gw).1).syncedIds).led
        gw := (afterFetch env (driftStep env led gw).1 (driftStep env led gw).2.1
          dr ub ((driftStep env led gw).1).syncedIds).gw
        trace := [Effect.initLedger] ++ (driftStep env led gw).2.2 ++
          [Effect.getSyncedIds,
           Effect.fetchCalls
             (match since with
              | some s => some s
              | none => getDefaultSince env (driftStep env led gw).1) ao] ++
          (afterFetch env (driftStep env led gw).1 (driftStep env led gw).2.1
            dr ub ((driftStep env led gw).1).syncedIds).trace } := by
  simp only [sync, h1, h2, h3]

theorem clearAllSyncedCalls_getSetting (led : LedgerState) (k : String) :
    (led.clearAllSyncedCalls).getSetting k = led.getSetting k := rfl

/-- The drift step touches only the `calendar_id` setting. -/
theorem driftStep_getSetting (env : SyncEnv) (led : LedgerState) (gw : GatewayState)
    (k : String) (hk : k ≠ SETTING_CALENDAR_ID) :
    ((driftStep env led gw).1).getSetting k = led.getSetting k := by
  have hne : ¬SETTING_CALENDAR_ID = k := fun h => hk h.symm
  simp only [driftStep]
  split
  · rfl
  · split
    · split <;>
        simp [LedgerState.setSetting, LedgerState.getSetting,
          LedgerState.clearAllSyncedCalls, getAssoc_setAssoc, hne]
    · simp [LedgerState.setSetting, LedgerState.getSetting, getAssoc_setAssoc, hne]

theorem getDefaultSince_driftStep (env : SyncEnv) (led : LedgerState)
    (gw : GatewayState) :
    getDefaultSince env (driftStep env led gw).1 = getDefaultSince env led := by
  have h1 : SETTING_SYNC_ALL_HISTORY ≠ SETTING_CALENDAR_ID := by decide
  have h2 : SETTING_INITIAL_SYNC_DONE ≠ SETTING_CALENDAR_ID := by decide
  simp only [getDefaultSince, driftStep_getSetting env led gw _ h1,
    driftStep_getSetting env led gw _ h2]

theorem getOrCreateCalendar_trace_sub (env : SyncEnv) (gw : GatewayState) :
    ∀ e ∈ (getOrCreateCalendar env gw).trace, e = Effect.resolveCalendar := by
  simp only [getOrCreateCalendar]
  split
  · simp
  · split <;> simp

/-- The drift step emits at most a calendar resolution, a synced-set clear,
and a `calendar_id` settings write. -/
theorem driftStep_trace_mem (env : SyncEnv) (led : LedgerState) (gw : GatewayState) :
    ∀ e ∈ (driftStep env led gw).2.2,
      e = Effect.resolveCalendar ∨ e = Effect.clearAllSynced ∨
      ∃ v, e = Effect.setSetting SETTING_CALENDAR_ID v := by
  simp only [driftStep]
  split
  · intro e he
    exact Or.inl (getOrCreateCalendar_trace_sub env gw e he)
  · split
    · split
      · intro e he
        simp only [List.append_assoc, List.mem_append, List.mem_cons,
          List.not_mem_nil, or_false] at he
        rcases he with he | he | he
        · exact Or.inl (getOrCreateCalendar_trace_sub env gw e he)
        · exact Or.inr (Or.inl he)
        · exact Or.inr (Or.inr ⟨_, he⟩)
      · intro e he
        simp only [List.append_nil, List.mem_append, List.mem_cons,
          List.not_mem_nil, or_false] at he
        rcases he with he | he
        · exact Or.inl (getOrCreateCalendar_trace_sub env gw e he)
        · exact Or.inr (Or.inr ⟨_, he⟩)
    · intro e he
      simp only [List.append_nil, List.mem_append, List.mem_cons,
        List.not_mem_nil, or_false] at he
      rcases he with he | he
      · exact Or.inl (getOrCreateCalendar_trace_sub env gw e he)
      · exact Or.inr (Or.inr ⟨_, he⟩)

/-- No effect of the drift step is event creation, a synced-call mark, or a
write of `initial_sync_done`. -/
theorem driftStep_trace_benign (env : SyncEnv) (led : LedgerState) (gw : GatewayState) :
    ∀ e ∈ (driftStep env led gw).2.2, isDryRunForbidden e = false := by
  intro e he
  rcases driftStep_trace_mem env led gw e he with h | h | ⟨v, h⟩ <;> subst h <;>
    simp [isDryRunForbidden, isCreationEffect, SETTING_CALENDAR_ID,
      SETTING_INITIAL_SYNC_DONE]

theorem creation_of_dryRunForbidden (e : Effect)
    (h : isDryRunForbidden e = false) : isCreationEffect e = false := by
  cases e <;> simp_all [isDryRunForbidden, isCreationEffect]

/-- The source's combined filter-and-dedup loop equals "drop the
already-synced ids, then collapse repeats keeping the first occurrence". -/
theorem filterDedupAux_eq_keepFirst (syncedIds : List String) :
    ∀ (calls : List CallRecord) (seen : List String),
      filterDedupAux syncedIds calls seen =
        keepFirstByIdAux (calls.filter (fun c => !(syncedIds.contains c.unique_id))) seen := by
  intro calls
  induction calls with
  | nil => intro seen; rfl
  | cons c rest ih =>
      intro seen
      by_cases hs : c.unique_id ∈ syncedIds
      · simp [filterDedupAux, List.filter_cons, hs, ih]
      · by_cases hn : c.unique_id ∈ seen <;>
          simp [filterDedupAux, List.filter_cons, hs, hn, keepFirstByIdAux, ih]

theorem keepFirstByIdAux_length_le :
    ∀ (l : List CallRecord) (seen : List String),
      (keepFirstByIdAux l seen).length ≤ l.length := by
  intro l
  induction l with
  | nil => intro seen; simp [keepFirstByIdAux]
  | cons c rest ih =>
      intro seen
      simp only [keepFirstByIdAux]
      split
      · exact Nat.le_succ_of_le (ih _)
      · simpa using Nat.succ_le_succ (ih _)

theorem length_filter_partition (p : CallRecord → Bool) (l : List CallRecord) :
    (l.filter p).length + (l.filter (fun a => !(p a))).length = l.length := by
  induction l with
  | nil => rfl
  | cons a t ih =>
      by_cases h : p a = true <;> simp [List.filter_cons, h, ← ih] <;> omega

/-! ## Claim theorems -/

/-- C10: `create_events_batch` on an empty call list returns the empty result
list and performs no gateway interaction at all: the gateway state (including
the calendar-resolution cache and query counter) is unchanged and the trace
is empty — no calendar resolution or creation, no batched request, no
progress callback. -/
theorem create_events_batch_empty_no_interaction (env : SyncEnv) (gw : GatewayState) :
    createEventsBatch env gw [] = (some [], gw, []) := rfl

/-- C2: every call of the input list yields exactly one result tuple of
`create_events_batch`, in input order (the first components of the results
are exactly the input `unique_id`s, in order); and whenever an entire chunk's
batched request fails, every call of that chunk appears in the result list
with no event id and a non-null error string. -/
theorem create_events_batch_results_cover_inputs (env : SyncEnv) (gw : GatewayState)
    (calls : List CallRecord) (res : List (String × Option String × Option String))
    (gw2 : GatewayState) (tr : List Effect)
    (h : createEventsBatch env gw calls = (some res, gw2, tr)) :
    res.map (fun t => t.1) = calls.map (fun c => c.unique_id) ∧
    ∀ k ck e, (chunksOf calls).get? k = some ck →
      env.chunk k = ChunkOutcome.fail e →
      ∀ c ∈ ck, (c.unique_id, (none : Option String), some e) ∈ res := by
  by_cases hemp : calls.isEmpty
  · have : calls = [] := List.isEmpty_iff.mp hemp
    subst this
    simp only [createEventsBatch, List.isEmpty_nil, if_true, Prod.mk.injEq,
      Option.some_inj] at h
    obtain ⟨h1, _, _⟩ := h
    subst h1
    constructor
    · simp
    · intro k ck e hget
      simp [chunksOf, chunksOfAux] at hget
  · have hres : res = (processChunks env calls.length (chunksOf calls) 0).1 := by
      simp only [createEventsBatch, hemp, if_false, Bool.false_eq_true] at h
      rcases hr : (getOrCreateCalendar env gw).result with e | c <;> rw [hr] at h
      · simp at h
      · simp only [Prod.mk.injEq, Option.some_inj] at h
        exact h.1.symm
    subst hres
    constructor
    · rw [processChunks_map_fst, chunksOf_flatten]
    · intro k ck e hget hfail c hc
      have := chunkResults_fail_mem env k ck e hfail c hc
      have h0 : (0 : Nat) + k = k := by omega
      exact processChunks_mem_of_get env calls.length (chunksOf calls) 0 k ck _
        hget (by rw [h0]; exact this)

/-- C1: the filter step of `sync` keeps exactly the candidates whose id is
not in the synced-id set, collapsed to the first occurrence of each id (by id
only, so later duplicates with different fields are discarded), and
`calls_skipped` equals the number of already-synced drops plus the number of
in-batch duplicate drops; on any run of `sync` that reaches the filter, the
returned `calls_skipped` is exactly this count over the fetched candidates. -/
theorem sync_filter_dedup_skip_count :
    (∀ (allCalls : List CallRecord) (syncedIds : List String),
      (filterDedup allCalls syncedIds).1 =
        keepFirstById (allCalls.filter (fun c => !(syncedIds.contains c.unique_id))) ∧
      (filterDedup allCalls syncedIds).2 =
        (allCalls.filter (fun c => syncedIds.contains c.unique_id)).length +
          ((allCalls.filter (fun c => !(syncedIds.contains c.unique_id))).length -
            (filterDedup allCalls syncedIds).1.length)) ∧
    (∀ env led gw ao since dr ub r,
      env.initErr = none → checkPrerequisites env = [] → env.syncedIdsErr = none →
      ∀ allCalls, env.fetch = .ok allCalls →
      (sync env led gw ao since dr ub).result = some r →
      r.calls_skipped =
        (filterDedup allCalls ((driftStep env led gw).1).syncedIds).2) := by
  constructor
  · intro allCalls syncedIds
    have hkept : (filterDedup allCalls syncedIds).1 =
        keepFirstById (allCalls.filter (fun c => !(syncedIds.contains c.unique_id))) :=
      filterDedupAux_eq_keepFirst syncedIds allCalls []
    refine ⟨hkept, ?_⟩
    have hpart :=
      length_filter_partition (fun c => syncedIds.contains c.unique_id) allCalls
    have hle : (filterDedup allCalls syncedIds).1.length ≤
        (allCalls.filter (fun c => !(syncedIds.contains c.unique_id))).length := by
      rw [hkept]
      exact keepFirstByIdAux_length_le _ []
    show allCalls.length - (filterDedup allCalls syncedIds).1.length = _
    omega
  · intro env led gw ao since dr ub r h1 h2 h3 allCalls h4 h5
    rw [sync_eq_of_ok env led gw ao since dr ub h1 h2 h3] at h5
    simp only [afterFetch, h4] at h5
    split at h5
    · simp only [Option.some_inj] at h5
      subst h5
      rfl
    · split at h5
      · simp only [Option.some_inj] at h5
        subst h5
        rfl
      · split at h5
        · split at h5
          · simp at h5
          · simp only [Option.some_inj] at h5
            subst h5
            rfl
        · simp only [Option.some_inj] at h5
          subst h5
          rfl

/-- C3: in a run past the prerequisites with a fresh calendar cache, if the
gateway resolves the current calendar id and the stored `calendar_id` setting
is non-empty and differs from it, then the trace clears the synced-call set
(position 2), then persists the new calendar id (position 3), and only after
that fetches candidates (a fetch effect occurs from position 4 on); and if
the calendar resolution itself fails, the failure is tolerated: the run still
proceeds to fetch candidates. -/
theorem sync_calendar_drift_clears_before_fetch (env : SyncEnv) (led : LedgerState)
    (gw : GatewayState) (ao : Bool) (since : Option Int) (dr ub : Bool)
    (h1 : env.initErr = none) (h2 : checkPrerequisites env = [])
    (h3 : env.syncedIdsErr = none) (hCache : gw.calendarCache = none) :
    (∀ cid s, env.calendarId gw.queries = .ok cid →
      led.getSetting SETTING_CALENDAR_ID = some s → s ≠ "" → s ≠ cid →
      (sync env led gw ao since dr ub).trace.get? 2 = some Effect.clearAllSynced ∧
      (sync env led gw ao since dr ub).trace.get? 3 =
        some (Effect.setSetting SETTING_CALENDAR_ID cid) ∧
      ((sync env led gw ao since dr ub).trace.drop 4).any isFetchEffect = true) ∧
    (∀ e, env.calendarId gw.queries = .error e →
      (sync env led gw ao since dr ub).trace.any isFetchEffect = true) := by
  constructor
  · intro cid s hq hst hs0 hne
    have hrc : getOrCreateCalendar env gw =
        { result := .ok cid, gw := { calendarCache := some cid, queries := gw.queries + 1 },
          trace := [Effect.resolveCalendar] } := by
      simp [getOrCreateCalendar, hCache, hq]
    have hdrift : (driftStep env led gw).2.2 =
        [Effect.resolveCalendar, Effect.clearAllSynced,
         Effect.setSetting SETTING_CALENDAR_ID cid] := by
      simp [driftStep, hrc, hst, hs0, hne]
    rw [sync_eq_of_ok env led gw ao since dr ub h1 h2 h3]
    simp only [hdrift, List.cons_append, List.nil_append, List.singleton_append]
    refine ⟨rfl, rfl, ?_⟩
    simp [isFetchEffect]
  · intro e hq
    have hrc : getOrCreateCalendar env gw =
        { result := .error e, gw := { gw with queries := gw.queries + 1 },
          trace := [Effect.resolveCalendar] } := by
      simp [getOrCreateCalendar, hCache, hq]
    have hdrift : (driftStep env led gw).2.2 = [Effect.resolveCalendar] := by
      simp [driftStep, hrc]
    rw [sync_eq_of_ok env led gw ao since dr ub h1 h2 h3]
    simp only [hdrift, List.cons_append, List.nil_append, List.singleton_append]
    simp [isFetchEffect]

/-- C4: window selection on a run that reaches the fetch — an explicit
`since` is used unchanged; with no explicit `since`, the window is unbounded
when `sync_all_history` or `initial_sync_done` is `"true"`, and otherwise
starts 30 days before the current time. -/
theorem sync_window_selection (env : SyncEnv) (led : LedgerState) (gw : GatewayState)
    (ao : Bool) (since : Option Int) (dr ub : Bool)
    (h1 : env.initErr = none) (h2 : checkPrerequisites env = [])
    (h3 : env.syncedIdsErr = none) :
    (∀ s, since = some s →
      Effect.fetchCalls (some s) ao ∈ (sync env led gw ao since dr ub).trace) ∧
    (since = none →
      (led.getSetting SETTING_SYNC_ALL_HISTORY = some "true" ∨
       led.getSetting SETTING_INITIAL_SYNC_DONE = some "true") →
      Effect.fetchCalls none ao ∈ (sync env led gw ao since dr ub).trace) ∧
    (since = none →
      led.getSetting SETTING_SYNC_ALL_HISTORY ≠ some "true" →
      led.getSetting SETTING_INITIAL_SYNC_DONE ≠ some "true" →
      Effect.fetchCalls (some (env.now - (DEFAULT_SYNC_DAYS : Int) * 86400)) ao ∈
        (sync env led gw ao since dr ub).trace) := by
  refine ⟨?_, ?_, ?_⟩
  · intro s hs
    subst hs
    rw [sync_eq_of_ok env led gw ao (some s) dr ub h1 h2 h3]
    simp
  · intro hs hset
    subst hs
    rw [sync_eq_of_ok env led gw ao none dr ub h1 h2 h3]
    have hd : getDefaultSince env (driftStep env led gw).1 = none := by
      rw [getDefaultSince_driftStep]
      rcases hset with h | h
      · simp [getDefaultSince, h]
      · rw [getDefaultSince]
        split
        · rfl
        · simp [h]
    simp [hd]
  · intro hs hall hinit
    subst hs
    rw [sync_eq_of_ok env led gw ao none dr ub h1 h2 h3]
    have hd : getDefaultSince env (driftStep env led gw).1 =
        some (env.now - (DEFAULT_SYNC_DAYS : Int) * 86400) := by
      rw [getDefaultSince_driftStep]
      simp [getDefaultSince, hall, hinit]
    simp [hd]

/-- C5: when the filter leaves nothing to sync, `sync` sets
`initial_sync_done` to `"true"` and returns success with zero synced calls,
the accumulated skip count, and no errors, without any gateway
event-creation call. -/
theorem sync_early_exit_zero_work (env : SyncEnv) (led : LedgerState)
    (gw : GatewayState) (ao : Bool) (since : Option Int) (dr ub : Bool)
    (h1 : env.initErr = none) (h2 : checkPrerequisites env = [])
    (h3 : env.syncedIdsErr = none) (allCalls : List CallRecord)
    (h4 : env.fetch = .ok allCalls)
    (hEmpty : (filterDedup allCalls ((driftStep env led gw).1).syncedIds).1 = []) :
    (sync env led gw ao since dr ub).result =
      some { success := true, calls_synced := 0,
             calls_skipped := (filterDedup allCalls ((driftStep env led gw).1).syncedIds).2,
             errors := [], started_at := env.now, finished_at := env.now } ∧
    ((sync env led gw ao since dr ub).led).getSetting SETTING_INITIAL_SYNC_DONE =
      some "true" ∧
    ∀ e ∈ (sync env led gw ao since dr ub).trace, isCreationEffect e = false := by
  have hEmp : (filterDedup allCalls ((driftStep env led gw).1).syncedIds).1.isEmpty = true := by
    rw [hEmpty]
    rfl
  rw [sync_eq_of_ok env led gw ao since dr ub h1 h2 h3]
  simp only [afterFetch, h4, hEmp, if_true]
  refine ⟨rfl, ?_, ?_⟩
  · simp [LedgerState.setSetting, LedgerState.getSetting, getAssoc_setAssoc]
  · intro e he
    simp only [List.mem_append, List.mem_cons, List.not_mem_nil, or_false] at he
    rcases he with ((he | he) | (he | he)) | he
    · subst he; rfl
    · exact creation_of_dryRunForbidden e (driftStep_trace_benign env led gw e he)
    · subst he; rfl
    · subst he; rfl
    · subst he; rfl

/-- C6 (amended): a dry run with pending calls returns success with
`calls_synced` equal to the pending count and no errors, makes zero gateway
event-creation calls, writes no synced-call records, and does not set
`initial_sync_done`; the calendar-drift bookkeeping earlier in the run (a
`calendar_id` settings write, and possibly a synced-set clear) still
happens, and is the only ledger mutation of the run. -/
theorem sync_dry_run_no_creation (env : SyncEnv) (led : LedgerState)
    (gw : GatewayState) (ao : Bool) (since : Option Int) (ub : Bool)
    (h1 : env.initErr = none) (h2 : checkPrerequisites env = [])
    (h3 : env.syncedIdsErr = none) (allCalls : List CallRecord)
    (h4 : env.fetch = .ok allCalls)
    (hPending : (filterDedup allCalls ((driftStep env led gw).1).syncedIds).1 ≠ []) :
    (sync env led gw ao since true ub).result =
      some { success := true,
             calls_synced := (filterDedup allCalls ((driftStep env led gw).1).syncedIds).1.length,
             calls_skipped := (filterDedup allCalls ((driftStep env led gw).1).syncedIds).2,
             errors := [], started_at := env.now, finished_at := env.now } ∧
    (sync env led gw ao since true ub).led = (driftStep env led gw).1 ∧
    ∀ e ∈ (sync env led gw ao since true ub).trace, isDryRunForbidden e = false := by
  have hEmp : (filterDedup allCalls ((driftStep env led gw).1).syncedIds).1.isEmpty = false := by
    rcases hl : (filterDedup allCalls ((driftStep env led gw).1).syncedIds).1 with _ | ⟨a, t⟩
    · exact absurd hl hPending
    · rfl
  rw [sync_eq_of_ok env led gw ao since true ub h1 h2 h3]
  simp only [afterFetch, h4, hEmp, Bool.false_eq_true, if_false, if_true]
  refine ⟨?_, ?_, ?_⟩
  · simp [mkResult]
  · simp
  intro e he
  simp only [List.append_nil, List.mem_append, List.mem_cons,
    List.not_mem_nil, or_false] at he
  rcases he with (he | he) | (he | he)
  · subst he; rfl
  · exact driftStep_trace_benign env led gw e he
  · subst he; rfl
  · subst he; rfl

/-- C6 counterexample to the claim as stated: a dry run with three pending
calls does report success and `calls_synced = 3`, but ledger writes do occur
on that run — the drift check persists the `calendar_id` setting. -/
theorem sync_dry_run_writes_ledger_counterexample :
    (sync envHappy led0 gw0 true none true true).result =
      some { success := true, calls_synced := 3, calls_skipped := 0,
             errors := [], started_at := 1705314600, finished_at := 1705314600 } ∧
    Effect.setSetting SETTING_CALENDAR_ID "cal-1" ∈
      (sync envHappy led0 gw0 true none true true).trace ∧
    ((sync envHappy led0 gw0 true none true true).trace).any isLedgerWrite = true := by
  decide

/-- C8: a ledger-initialization failure aborts the run with exactly that one
error, unchanged ledger and gateway state, and a trace containing only the
initialization attempt; a failing prerequisite check aborts the run with
exactly the accumulated prerequisite errors and the same absence of side
effects (no synced-call writes, no settings writes, no gateway creation
calls). -/
theorem sync_fatal_aborts_without_side_effects (env : SyncEnv) (led : LedgerState)
    (gw : GatewayState) (ao : Bool) (since : Option Int) (dr ub : Bool) :
    (∀ e, env.initErr = some e →
      sync env led gw ao since dr ub =
        { result := some
            { success := false, calls_synced := 0, calls_skipped := 0,
              errors := [s!"Failed to initialize sync database: {e}"],
              started_at := env.now, finished_at := env.now },
          led := led, gw := gw, trace := [Effect.initLedger] }) ∧
    (env.initErr = none →
      ∀ e es, checkPrerequisites env = e :: es →
        sync env led gw ao since dr ub =
          { result := some
              { success := false, calls_synced := 0, calls_skipped := 0,
                errors := e :: es, started_at := env.now, finished_at := env.now },
            led := led, gw := gw, trace := [Effect.initLedger] }) := by
  constructor
  · intro e he
    simp [sync, mkResult, he]
  · intro hn e es hp
    simp [sync, mkResult, hn, hp]

/-- C9: every `SyncResult` actually returned by `sync`, on every return path,
has `success` true exactly when its error list is empty. -/
theorem sync_success_iff_no_errors (env : SyncEnv) (led : LedgerState)
    (gw : GatewayState) (ao : Bool) (since : Option Int) (dr ub : Bool)
    (r : SyncResult) (h : (sync env led gw ao since dr ub).result = some r) :
    r.success = true ↔ r.errors = [] := by
  rcases hI : env.initErr with _ | e
  · rcases hP : checkPrerequisites env with _ | ⟨e0, es⟩
    · rcases hS : env.syncedIdsErr with _ | e
      · rw [sync_eq_of_ok env led gw ao since dr ub hI hP hS] at h
        rcases hF : env.fetch with fe | allCalls
        · rcases fe with m | m <;>
            · simp only [afterFetch, hF, Option.some_inj] at h
              subst h
              simp [mkResult]
        · simp only [afterFetch, hF] at h
          split at h
          · simp only [Option.some_inj] at h
            subst h
            simp [mkResult]
          · split at h
            · simp only [Option.some_inj] at h
              subst h
              simp [mkResult]
            · split at h
              · split at h
                · simp at h
                · simp only [Option.some_inj] at h
                  subst h
                  simp [mkResult, List.isEmpty_iff]
              · simp only [Option.some_inj] at h
                subst h
                simp [mkResult, List.isEmpty_iff]
      · simp only [sync, hI, hP, hS, Option.some_inj] at h
        subst h
        simp [mkResult]
    · simp only [sync, hI, hP, Option.some_inj] at h
      subst h
      simp [mkResult]
  · simp only [sync, hI, Option.some_inj] at h
    subst h
    simp [mkResult]

/-- C7: the event body built from any call has end = start +
max(duration, 60); its duration label is `duration_seconds / 60` rounded to a
nearest integer minute, floored at 1, rendered `"{m}min"` below an hour and
`"{h}h {m}m"` (omitting the minute part when zero) at or above; and the
spec's worked example — an answered incoming 300-second call from the
contact "John Doe" at 2024-01-15T10:30:00Z — yields exactly the stated
title, description lines, and 2024-01-15T10:35:00Z end. -/
theorem build_event_body_formatting :
    (∀ (lookup : String → Option String) (call : CallRecord) (cn : Option String),
      (buildEventBody lookup call cn).endTs =
        call.timestamp + ((max call.duration_seconds 60 : Nat) : Int) ∧
      60 * pyRoundDiv60 call.duration_seconds ≤ call.duration_seconds + 30 ∧
      call.duration_seconds ≤ 60 * pyRoundDiv60 call.duration_seconds + 30 ∧
      (max (pyRoundDiv60 call.duration_seconds) 1 < 60 →
        durationLabel call.duration_seconds =
          s!"{max (pyRoundDiv60 call.duration_seconds) 1}min") ∧
      (60 ≤ max (pyRoundDiv60 call.duration_seconds) 1 →
        (max (pyRoundDiv60 call.duration_seconds) 1 % 60 = 0 →
          durationLabel call.duration_seconds =
            s!"{max (pyRoundDiv60 call.duration_seconds) 1 / 60}h") ∧
        (max (pyRoundDiv60 call.duration_seconds) 1 % 60 ≠ 0 →
          durationLabel call.duration_seconds =
            s!"{max (pyRoundDiv60 call.duration_seconds) 1 / 60}h {max (pyRoundDiv60 call.duration_seconds) 1 % 60}m"))) ∧
    buildEventBody (fun _ => none) johnCall none =
      { summary := "↙ John Doe [5min]",
        description := "Direction: Incoming\nDuration: 5 minutes\nNumber: +15551234567",
        startTs := utcEpoch 2024 1 15 10 30 0,
        endTs := utcEpoch 2024 1 15 10 35 0,
        callUniqueId := "john-1" } := by
  constructor
  · intro lookup call cn
    refine ⟨rfl, ?_, ?_, ?_, ?_⟩
    · have h := Nat.div_add_mod call.duration_seconds 60
      simp only [pyRoundDiv60]
      split
      · omega
      · split
        · omega
        · split <;> omega
    · have h := Nat.div_add_mod call.duration_seconds 60
      simp only [pyRoundDiv60]
      split
      · omega
      · split
        · omega
        · split <;> omega
    · intro hlt
      simp only [durationLabel]
      rw [if_neg (by omega)]
    · intro hge
      constructor
      · intro hz
        simp only [durationLabel]
        rw [if_pos hge]
        simp only [hz]
        rfl
      · intro hnz
        simp only [durationLabel]
        rw [if_pos hge, if_pos (by omega)]
  · decide

/-! ## Witnesses -/

theorem sync_filter_dedup_skip_count_witness :
    ({ success := true, calls_synced := 1, calls_skipped := 2, errors := [],
       started_at := 1705314600, finished_at := 1705314600 } : SyncResult).calls_skipped =
      (filterDedup [call1, call1dup, call2]
        ((driftStep envDup ledSynced2 gw0).1).syncedIds).2 :=
  sync_filter_dedup_skip_count.2 envDup ledSynced2 gw0 true none true true _
    rfl (by decide) rfl [call1, call1dup, call2] rfl (by decide)

theorem create_events_batch_results_cover_inputs_witness :
    (call1.unique_id, (none : Option String), some "network down") ∈
      [("c1", (none : Option String), (some "network down" : Option String)),
       ("c2", none, some "network down")] :=
  (create_events_batch_results_cover_inputs envBatchFail gw0 [call1, call2]
      [("c1", none, some "network down"), ("c2", none, some "network down")]
      { calendarCache := some "cal-1", queries := 1 }
      [Effect.resolveCalendar, Effect.chunkRequest 0, Effect.progress 2 2]
      (by decide)).2 0 [call1, call2] "network down" (by decide) rfl call1 (by decide)

theorem sync_calendar_drift_clears_before_fetch_witness :
    (sync envHappy ledDrift gw0 true none true true).trace.get? 2 =
      some Effect.clearAllSynced ∧
    (sync envHappy ledDrift gw0 true none true true).trace.get? 3 =
      some (Effect.setSetting SETTING_CALENDAR_ID "cal-1") ∧
    ((sync envHappy ledDrift gw0 true none true true).trace.drop 4).any
      isFetchEffect = true :=
  (sync_calendar_drift_clears_before_fetch envHappy ledDrift gw0 true none true true
      rfl (by decide) rfl rfl).1 "cal-1" "cal-0" rfl (by decide) (by decide) (by decide)

theorem sync_window_selection_witness :
    Effect.fetchCalls (some (envHappy.now - (DEFAULT_SYNC_DAYS : Int) * 86400)) true ∈
      (sync envHappy led0 gw0 true none true true).trace :=
  (sync_window_selection envHappy led0 gw0 true none true true
      rfl (by decide) rfl).2.2 rfl (by decide) (by decide)

theorem sync_early_exit_zero_work_witness :
    (sync envNoCalls led0 gw0 true none false true).result =
      some { success := true, calls_synced := 0,
             calls_skipped :=
               (filterDedup ([] : List CallRecord)
                 ((driftStep envNoCalls led0 gw0).1).syncedIds).2,
             errors := [], started_at := 1705314600, finished_at := 1705314600 } :=
  (sync_early_exit_zero_work envNoCalls led0 gw0 true none false true
      rfl (by decide) rfl [] rfl (by decide)).1

theorem sync_dry_run_no_creation_witness :
    (sync envHappy led0 gw0 true none true true).result =
      some { success := true,
             calls_synced :=
               (filterDedup [call1, call2, call3]
                 ((driftStep envHappy led0 gw0).1).syncedIds).1.length,
             calls_skipped :=
               (filterDedup [call1, call2, call3]
                 ((driftStep envHappy led0 gw0).1).syncedIds).2,
             errors := [], started_at := 1705314600, finished_at := 1705314600 } :=
  (sync_dry_run_no_creation envHappy led0 gw0 true none true
      rfl (by decide) rfl [call1, call2, call3] rfl (by decide)).1

theorem build_event_body_formatting_witness :
    durationLabel 300 = "5min" ∧ durationLabel 3600 = "1h" ∧
      durationLabel 5400 = "1h 30m" := by
  refine ⟨?_, ?_, ?_⟩
  · exact ((build_event_body_formatting.1 (fun _ => none) johnCall none).2.2.2.1
      (by decide)).trans (by decide)
  · exact (((build_event_body_formatting.1 (fun _ => none)
      { johnCall with duration_seconds := 3600 } none).2.2.2.2
        (by decide)).1 (by decide)).trans (by decide)
  · exact (((build_event_body_formatting.1 (fun _ => none)
      { johnCall with duration_seconds := 5400 } none).2.2.2.2
        (by decide)).2 (by decide)).trans (by decide)

theorem sync_fatal_aborts_without_side_effects_witness :
    sync envInitFail led0 gw0 true none false true =
      { result := some
          { success := false, calls_synced := 0, calls_skipped := 0,
            errors := ["Failed to initialize sync database: disk full"],
            started_at := 1705314600, finished_at := 1705314600 },
        led := led0, gw := gw0, trace := [Effect.initLedger] } ∧
    sync envNoAuth led0 gw0 true none false true =
      { result := some
          { success := false, calls_synced := 0, calls_skipped := 0,
            errors := ["Not authenticated with Google Calendar."],
            started_at := 1705314600, finished_at := 1705314600 },
        led := led0, gw := gw0, trace := [Effect.initLedger] } :=
  ⟨(sync_fatal_aborts_without_side_effects envInitFail led0 gw0 true none false true).1
      "disk full" rfl,
   (sync_fatal_aborts_without_side_effects envNoAuth led0 gw0 true none false true).2
      rfl "Not authenticated with Google Calendar." [] (by decide)⟩

theorem sync_success_iff_no_errors_witness :
    ({ success := true, calls_synced := 3, calls_skipped := 0, errors := [],
       started_at := 1705314600, finished_at := 1705314600 } : SyncResult).success = true ↔
    ({ success := true, calls_synced := 3, calls_skipped := 0, errors := [],
       started_at := 1705314600, finished_at := 1705314600 } : SyncResult).errors = [] :=
  sync_success_iff_no_errors envHappy led0 gw0 true none true true _ (by decide)

end CallSync
